import Mathlib

/-!
# Verification of the `blurple_hook` webhook library (src/lib.rs)

Shallow embedding of the payload data model, its builder operations, the
colour-normalization rule, the HTTP-response classification of `Webhook::send`,
and the rate-limited dispatch queue (`queue::WebhookQueue`).

Modelling conventions:
* Rust `String`/`&str` values stored in structures are Lean `String`s; the
  colour-parsing machinery works on `List Char` (the character sequence of the
  string fed to `usize::from_str_radix`).
* `usize` is modelled as `Nat` with the 64-bit bound `usizeMax = 2 ^ 64 - 1`
  made explicit where overflow matters (`from_str_radix` fails on overflow).
* `VecDeque<Webhook>` is modelled as `List Webhook` with the FRONT of the
  deque at the HEAD of the list: `push_front` is `cons`, `pop_back` removes
  the last element of the list.
* Network I/O and wall-clock time are external: `Webhook::send` is modelled
  as a pure classifier of the HTTP response it received, and `set_timestamp`
  stores the externally rendered timestamp string (chrono formatting is
  outside the embedded code).
-/

namespace BlurpleHook

/-! ## Colour parsing (`Embed::set_colour`, src/lib.rs lines 247-261) -/

/-- `usize::MAX` on a 64-bit platform. -/
def usizeMax : Nat := 2 ^ 64 - 1

/-- Model of `char::to_digit(16)` as used by `usize::from_str_radix(_, 16)`:
the value of a single hexadecimal digit, or `none` for a non-digit. -/
def hexDigitVal? (c : Char) : Option Nat :=
  if '0' ≤ c ∧ c ≤ '9' then some (c.toNat - '0'.toNat)
  else if 'a' ≤ c ∧ c ≤ 'f' then some (c.toNat - 'a'.toNat + 10)
  else if 'A' ≤ c ∧ c ≤ 'F' then some (c.toNat - 'A'.toNat + 10)
  else none

/-- The digit-accumulation loop of `usize::from_str_radix(_, 16)` for a
non-negative number: starting from `acc`, multiply by 16 and add each digit,
failing (`none`) on the first non-digit character or on overflow past
`usizeMax` (Rust uses `checked_mul`/`checked_add`; since
`acc * 16 ≤ acc * 16 + d`, the single bound `acc * 16 + d ≤ usizeMax`
captures both checks). -/
def parseHexUsize : List Char → Nat → Option Nat
  | [], acc => some acc
  | c :: cs, acc =>
    match hexDigitVal? c with
    | none => none
    | some d =>
      if acc * 16 + d ≤ usizeMax then parseHexUsize cs (acc * 16 + d) else none

/-- Model of `usize::from_str_radix(s, 16)`: empty input is an error, as is
a lone sign character; a leading `+` is skipped and the remaining characters
are parsed as base-16 digits. For the unsigned `usize` a leading `-` is NOT
treated as a sign (that arm of Rust's parser is guarded by `is_signed_ty`):
the `-` stays in the digit run and fails there as an invalid digit, so every
`-`-prefixed string is an error. -/
def from_str_radix_16 (s : List Char) : Option Nat :=
  match s with
  | [] => none
  | c :: rest =>
    if (c = '+' ∨ c = '-') ∧ rest = [] then none
    else if c = '+' then parseHexUsize rest 0
    else parseHexUsize (c :: rest) 0

/-- Model of `str::trim_start_matches('#')`: remove every leading `'#'`. -/
def trim_start_matches_hash : List Char → List Char
  | [] => []
  | c :: cs => if c = '#' then trim_start_matches_hash cs else c :: cs

/-- Model of `str::trim_start_matches("0x")`: remove every leading
occurrence of the two-character pattern `0x`. -/
def trim_start_matches_0x : List Char → List Char
  | c1 :: c2 :: rest =>
    if c1 = '0' ∧ c2 = 'x' then trim_start_matches_0x rest else c1 :: c2 :: rest
  | l => l

/-- The base-16 value of a digit run, read big-endian starting from `acc`:
the overflow-free reference value of the accumulation loop of
`from_str_radix`. -/
def hexFoldVal (l : List Char) (acc : Nat) : Nat :=
  l.foldl (fun a c => a * 16 + (hexDigitVal? c).getD 0) acc

/-- The integer a run of bare hexadecimal digits denotes in base 16 (the
reference value the spec compares `set_colour` against). -/
def hexDigitsValue (l : List Char) : Nat :=
  hexFoldVal l 0

/-- `ColourType<S>` (src/lib.rs lines 152-155): either a hexadecimal string
or a raw integer. -/
inductive ColourType where
  | Hex : List Char → ColourType
  | Integer : Nat → ColourType

/-- The colour an argument normalizes to, exactly as computed inside
`Embed::set_colour`: strip leading `#` then leading `0x`, parse base 16,
and fall back to `10066329` when parsing fails. -/
def normalizeColour (colour : ColourType) : Nat :=
  match colour with
  | .Hex hex =>
    (from_str_radix_16 (trim_start_matches_0x (trim_start_matches_hash hex))).getD 10066329
  | .Integer int => int

/-! ## The payload data model (src/lib.rs lines 76-155) -/

/-- `Field` (src/lib.rs lines 146-151). -/
structure Field where
  name : String
  value : String
  inline : Bool
  deriving DecidableEq, Repr

/-- `Footer` (src/lib.rs lines 107-112). -/
structure Footer where
  text : String
  icon_url : Option String
  proxy_icon_url : Option String
  deriving DecidableEq, Repr

/-- `Image` (src/lib.rs lines 113-119). -/
structure Image where
  url : String
  proxy_url : Option String
  height : Option Nat
  width : Option Nat
  deriving DecidableEq, Repr

/-- `Thumbnail` (src/lib.rs lines 120-126). -/
structure Thumbnail where
  url : String
  proxy_url : Option String
  height : Option Nat
  width : Option Nat
  deriving DecidableEq, Repr

/-- `Video` (src/lib.rs lines 127-133). -/
structure Video where
  url : String
  proxy_url : Option String
  height : Option Nat
  width : Option Nat
  deriving DecidableEq, Repr

/-- `Provider` (src/lib.rs lines 134-138). -/
structure Provider where
  name : Option String
  url : Option String
  deriving DecidableEq, Repr

/-- `Author` (src/lib.rs lines 139-145). -/
structure Author where
  name : String
  url : Option String
  icon_url : Option String
  proxy_icon_url : Option String
  deriving DecidableEq, Repr

/-- `Component` (src/lib.rs line 87-88): an empty struct, reserved. -/
structure Component where
  deriving DecidableEq, Repr

/-- `Embed` (src/lib.rs lines 90-106). The serde-renamed `type` field keeps
its Rust name `_type`. -/
structure Embed where
  title : Option String
  _type : String
  description : Option String
  url : Option String
  timestamp : Option String
  color : Option Nat
  footer : Option Footer
  image : Option Image
  thumbnail : Option Thumbnail
  video : Option Video
  provider : Option Provider
  author : Option Author
  fields : List Field
  deriving DecidableEq, Repr

/-- `Webhook` (src/lib.rs lines 76-85). `webhook_url` carries
`#[serde(skip)]` in the source. -/
structure Webhook where
  webhook_url : String
  content : Option String
  username : Option String
  avatar_url : Option String
  embeds : List Embed
  components : List Component
  deriving DecidableEq, Repr

/-! ## Embed builder operations (src/lib.rs lines 208-377) -/

/-- `Embed::new` (src/lib.rs lines 209-225): everything unset, the type
discriminator fixed to `"rich"`. -/
def Embed.new : Embed where
  title := none
  _type := "rich"
  description := none
  url := none
  timestamp := none
  color := none
  footer := none
  image := none
  thumbnail := none
  video := none
  provider := none
  author := none
  fields := []

def Embed.set_title (e : Embed) (title : String) : Embed :=
  { e with title := some title }

def Embed.set_description (e : Embed) (description : String) : Embed :=
  { e with description := some description }

def Embed.set_url (e : Embed) (url : String) : Embed :=
  { e with url := some url }

/-- `Embed::set_timestamp` (src/lib.rs lines 238-246): the chosen instant
(the explicit one, or the wall clock `Utc::now()`) is rendered by chrono's
`%+` format outside the embedded code; `rendered` is that rendered string. -/
def Embed.set_timestamp (e : Embed) (rendered : String) : Embed :=
  { e with timestamp := some rendered }

/-- `Embed::set_colour` (src/lib.rs lines 247-261). -/
def Embed.set_colour (e : Embed) (colour : ColourType) : Embed :=
  { e with color := some (normalizeColour colour) }

/-- `Embed::set_color` (src/lib.rs lines 262-264): delegates to
`set_colour`. -/
def Embed.set_color (e : Embed) (color : ColourType) : Embed :=
  e.set_colour color

def Embed.set_footer (e : Embed) (text : String)
    (icon_url proxy_icon_url : Option String) : Embed :=
  { e with footer := some ⟨text, icon_url, proxy_icon_url⟩ }

def Embed.set_image (e : Embed) (url : String) (proxy_url : Option String)
    (height width : Option Nat) : Embed :=
  { e with image := some ⟨url, proxy_url, height, width⟩ }

def Embed.set_thumbnail (e : Embed) (url : String) (proxy_url : Option String)
    (height width : Option Nat) : Embed :=
  { e with thumbnail := some ⟨url, proxy_url, height, width⟩ }

def Embed.set_video (e : Embed) (url : String) (proxy_url : Option String)
    (height width : Option Nat) : Embed :=
  { e with video := some ⟨url, proxy_url, height, width⟩ }

def Embed.set_provider (e : Embed) (name url : Option String) : Embed :=
  { e with provider := some ⟨name, url⟩ }

def Embed.set_author (e : Embed) (name : String)
    (url icon_url proxy_icon_url : Option String) : Embed :=
  { e with author := some ⟨name, url, icon_url, proxy_icon_url⟩ }

/-- `Embed::add_field` (src/lib.rs lines 361-371): push one field at the
end of `fields`. -/
def Embed.add_field (e : Embed) (name value : String) (inline : Bool) : Embed :=
  { e with fields := e.fields ++ [⟨name, value, inline⟩] }

/-- Model of `Vec::append` (used by `Embed::add_fields`): moves all elements
of `other` onto the end of `self`, leaving `other` empty. Returns the new
contents of `self` and of `other`. -/
def vecAppend (self other : List Field) : List Field × List Field :=
  (self ++ other, [])

/-- `Embed::add_fields` (src/lib.rs lines 373-376): `self.fields.append(fields)`.
The updated embed, paired with the contents the caller's vector is left
holding. -/
def Embed.add_fields_full (e : Embed) (fields : List Field) : Embed × List Field :=
  ({ e with fields := (vecAppend e.fields fields).1 }, (vecAppend e.fields fields).2)

/-- `Embed::add_fields`, embed part only. -/
def Embed.add_fields (e : Embed) (fields : List Field) : Embed :=
  (e.add_fields_full fields).1

/-! ## Webhook builder operations (src/lib.rs lines 157-183) -/

/-- `Webhook::new` (src/lib.rs lines 158-167). -/
def Webhook.new (webhook_url : String) : Webhook where
  webhook_url := webhook_url
  content := none
  username := none
  avatar_url := none
  embeds := []
  components := []

def Webhook.set_content (w : Webhook) (content : String) : Webhook :=
  { w with content := some content }

def Webhook.set_username (w : Webhook) (username : String) : Webhook :=
  { w with username := some username }

def Webhook.set_avatar_url (w : Webhook) (url : String) : Webhook :=
  { w with avatar_url := some url }

def Webhook.add_embed (w : Webhook) (embed : Embed) : Webhook :=
  { w with embeds := w.embeds ++ [embed] }

/-! ## Serialization (serde derive on the structures above)

serde's derived `Serialize` emits every field in declaration order, renders
`None` options as JSON `null` (the source has no `skip_serializing_if`),
renames `_type` to `"type"`, and skips `webhook_url` (`#[serde(skip)]`). -/

/-- A JSON value. -/
inductive Json where
  | null : Json
  | str : String → Json
  | num : Nat → Json
  | bool : Bool → Json
  | arr : List Json → Json
  | obj : List (String × Json) → Json

/-- serde rendering of `Option<String>`: `null` when absent. -/
def optStr : Option String → Json
  | none => Json.null
  | some s => Json.str s

/-- serde rendering of `Option<usize>`: `null` when absent. -/
def optNum : Option Nat → Json
  | none => Json.null
  | some n => Json.num n

/-- serde rendering of an optional nested structure: `null` when absent. -/
def optJson {α : Type} (f : α → Json) : Option α → Json
  | none => Json.null
  | some a => f a

def Field.toJson (f : Field) : Json :=
  .obj [("name", .str f.name), ("value", .str f.value), ("inline", .bool f.inline)]

def Footer.toJson (f : Footer) : Json :=
  .obj [("text", .str f.text), ("icon_url", optStr f.icon_url),
        ("proxy_icon_url", optStr f.proxy_icon_url)]

def Image.toJson (i : Image) : Json :=
  .obj [("url", .str i.url), ("proxy_url", optStr i.proxy_url),
        ("height", optNum i.height), ("width", optNum i.width)]

def Thumbnail.toJson (t : Thumbnail) : Json :=
  .obj [("url", .str t.url), ("proxy_url", optStr t.proxy_url),
        ("height", optNum t.height), ("width", optNum t.width)]

def Video.toJson (v : Video) : Json :=
  .obj [("url", .str v.url), ("proxy_url", optStr v.proxy_url),
        ("height", optNum v.height), ("width", optNum v.width)]

def Provider.toJson (p : Provider) : Json :=
  .obj [("name", optStr p.name), ("url", optStr p.url)]

def Author.toJson (a : Author) : Json :=
  .obj [("name", .str a.name), ("url", optStr a.url),
        ("icon_url", optStr a.icon_url), ("proxy_icon_url", optStr a.proxy_icon_url)]

def Component.toJson (_ : Component) : Json :=
  .obj []

/-- serde serialization of `Embed`; `_type` is emitted under the wire name
`"type"`. -/
def Embed.toJson (e : Embed) : Json :=
  .obj [("title", optStr e.title), ("type", .str e._type),
        ("description", optStr e.description), ("url", optStr e.url),
        ("timestamp", optStr e.timestamp), ("color", optNum e.color),
        ("footer", optJson Footer.toJson e.footer),
        ("image", optJson Image.toJson e.image),
        ("thumbnail", optJson Thumbnail.toJson e.thumbnail),
        ("video", optJson Video.toJson e.video),
        ("provider", optJson Provider.toJson e.provider),
        ("author", optJson Author.toJson e.author),
        ("fields", .arr (e.fields.map Field.toJson))]

/-- serde serialization of `Webhook`: `webhook_url` carries `#[serde(skip)]`
and is not emitted. -/
def Webhook.toJson (w : Webhook) : Json :=
  .obj [("content", optStr w.content), ("username", optStr w.username),
        ("avatar_url", optStr w.avatar_url),
        ("embeds", .arr (w.embeds.map Embed.toJson)),
        ("components", .arr (w.components.map Component.toJson))]

/-- The keys of a serialized JSON object (empty for non-objects). -/
def jsonKeys : Json → List String
  | .obj kvs => kvs.map Prod.fst
  | _ => []

/-! ## `Webhook::send` (src/lib.rs lines 184-205)

The network exchange is external: `send` builds the request, hands it to a
transport (the reqwest client), and classifies the outcome. A network-level
failure of the POST itself (the `?` on `.send().await`) is a transport error
propagated unchanged; otherwise the HTTP response is classified by status. -/

/-- The HTTP response the transport produced: a status code and the response
body text (`none` models an unreadable body, where `resp.text()` fails and
the code substitutes the empty string). -/
structure HttpResponse where
  status : Nat
  body : Option String
  deriving DecidableEq, Repr

/-- The POST request `Webhook::send` issues. -/
structure HttpRequest where
  url : String
  content_type : String
  body : Json

/-- The request built in `Webhook::send`: POST to `{webhook_url}?wait=true`
with header `Content-Type: application/json` and the serialized body. -/
def Webhook.request (w : Webhook) : HttpRequest where
  url := w.webhook_url ++ "?wait=true"
  content_type := "application/json"
  body := w.toJson

/-- `Webhook::send`: success on status 204 (`NO_CONTENT`) or 200 (`OK`);
any other status yields `Err(format_err!("Failed to send request, {}", body))`
where `body` is the response text or `""` when unreadable. -/
def Webhook.send (w : Webhook) (transport : HttpRequest → Except String HttpResponse) :
    Except String Unit :=
  match transport w.request with
  | .error e => .error e
  | .ok resp =>
    if resp.status = 204 ∨ resp.status = 200 then .ok ()
    else .error ("Failed to send request, " ++ resp.body.getD "")

/-! ## The dispatch queue (src/lib.rs lines 7-73, module `queue`)

The `VecDeque<Webhook>` is a `List Webhook` with the deque's FRONT at the
HEAD of the list; the mutex serializes access, so a drain with no concurrent
producers is a pure function of the queue contents. -/

namespace queue

/-- `VecDeque::push_front`. -/
def push_front (q : List Webhook) (webhook : Webhook) : List Webhook :=
  webhook :: q

/-- `VecDeque::pop_back`: the removed element (the last of the list, `none`
when empty) and the remaining deque. -/
def pop_back (q : List Webhook) : Option Webhook × List Webhook :=
  (q.getLast?, q.dropLast)

/-- `WebhookQueue::enqueue` (src/lib.rs lines 28-31): push to the front. -/
def enqueue (q : List Webhook) (webhook : Webhook) : List Webhook :=
  push_front q webhook

/-- `WebhookQueue::enqueue_multi` (src/lib.rs lines 33-38): push each
webhook, in the given order, to the front, one at a time. -/
def enqueue_multi (q : List Webhook) (webhooks : List Webhook) : List Webhook :=
  webhooks.foldl push_front q

/-- The bounded-mode (`cfg!(test)`) drain loop of `WebhookQueue::start`
(src/lib.rs lines 40-71), with no concurrent enqueues: each iteration pops
up to two items from the back, returns when both pops yielded nothing, and
otherwise delivers `one` then `two` sequentially before sleeping. Returns
the list of drain windows (each window listing that iteration's deliveries
in delivery order) and the final queue contents. -/
def start_drain (q : List Webhook) : List (List Webhook) × List Webhook :=
  if _h : (pop_back q).1 = none ∧ (pop_back (pop_back q).2).1 = none then
    ([], (pop_back (pop_back q).2).2)
  else
    (((pop_back q).1.toList ++ (pop_back (pop_back q).2).1.toList) ::
        (start_drain (pop_back (pop_back q).2).2).1,
      (start_drain (pop_back (pop_back q).2).2).2)
termination_by q.length
decreasing_by
  simp only [pop_back] at _h ⊢
  have hq : q ≠ [] := by
    rintro rfl
    simp at _h
  have h1 : q.dropLast.dropLast.length ≤ q.dropLast.length :=
    List.Sublist.length_le (List.dropLast_sublist _)
  have h2 : q.dropLast.length < q.length := by
    rw [List.length_dropLast]
    exact Nat.sub_lt (List.length_pos.mpr hq) Nat.one_pos
  exact Nat.lt_of_le_of_lt h1 h2

/-- The delivery order of a full bounded drain: the windows, flattened. -/
def delivered (q : List Webhook) : List Webhook :=
  (start_drain q).1.flatten

/-- The drain windows read off the queue from its back (oldest) end: two
items per window while at least two remain, then a final single-item window
when the count is odd. Reference function for `start_drain`. -/
def windowsOfBack : List Webhook → List (List Webhook)
  | [] => []
  | [a] => [[a]]
  | a :: b :: rest => [a, b] :: windowsOfBack rest

end queue

/-! ## Timing of the drain loop iteration (src/lib.rs lines 56-68)

One loop iteration, with instants as milliseconds on a discrete timeline:
the pops happen at the iteration's start, the up-to-two deliveries run
sequentially, and then the code executes
`tokio::time::sleep_until(Instant::now() + Duration::from_millis(2000))`,
where `Instant::now()` is sampled AFTER the deliveries. -/

/-- When the next iteration begins: `elapsed` is the time from the start of
step 1 (the pops under the lock) until the `sleep_until` call is reached
(i.e. the duration of the pops plus the sequential deliveries); the sleep
deadline is `Instant::now() + 2000`, hence two seconds after that point. -/
def nextIterationStart (stepOneStart elapsed : Nat) : Nat :=
  (stepOneStart + elapsed) + 2000

/-- The timing rule as the spec words it: sleep until exactly two seconds
have elapsed since step 1 of the iteration began. (Comparison definition,
written from the spec, not from the code.) -/
def specNextIterationStart (stepOneStart : Nat) : Nat :=
  stepOneStart + 2000

/-! ## Builder-call sequences (for the "any sequence of builder calls"
invariants) -/

/-- One public builder call on an `Embed`; arguments as in the source
operations above. -/
inductive EmbedOp where
  | set_title (title : String)
  | set_description (description : String)
  | set_url (url : String)
  | set_timestamp (rendered : String)
  | set_colour (colour : ColourType)
  | set_color (color : ColourType)
  | set_footer (text : String) (icon_url proxy_icon_url : Option String)
  | set_image (url : String) (proxy_url : Option String) (height width : Option Nat)
  | set_thumbnail (url : String) (proxy_url : Option String) (height width : Option Nat)
  | set_video (url : String) (proxy_url : Option String) (height width : Option Nat)
  | set_provider (name url : Option String)
  | set_author (name : String) (url icon_url proxy_icon_url : Option String)
  | add_field (name value : String) (inline : Bool)
  | add_fields (fields : List Field)

/-- Apply one builder call to an embed. -/
def applyEmbedOp (e : Embed) : EmbedOp → Embed
  | .set_title t => e.set_title t
  | .set_description d => e.set_description d
  | .set_url u => e.set_url u
  | .set_timestamp r => e.set_timestamp r
  | .set_colour c => e.set_colour c
  | .set_color c => e.set_color c
  | .set_footer t i p => e.set_footer t i p
  | .set_image u p h w => e.set_image u p h w
  | .set_thumbnail u p h w => e.set_thumbnail u p h w
  | .set_video u p h w => e.set_video u p h w
  | .set_provider n u => e.set_provider n u
  | .set_author n u i p => e.set_author n u i p
  | .add_field n v i => e.add_field n v i
  | .add_fields fs => e.add_fields fs

/-- One public builder call on a `Webhook`. -/
inductive WebhookOp where
  | set_content (content : String)
  | set_username (username : String)
  | set_avatar_url (url : String)
  | add_embed (embed : Embed)

/-- Apply one builder call to a webhook. -/
def applyWebhookOp (w : Webhook) : WebhookOp → Webhook
  | .set_content c => w.set_content c
  | .set_username u => w.set_username u
  | .set_avatar_url u => w.set_avatar_url u
  | .add_embed e => w.add_embed e

/-- One call touching an embed's field list: `add_field` (one field built
from its arguments) or `add_fields` (a bulk vector). -/
inductive FieldCall where
  | single (name value : String) (inline : Bool)
  | bulk (fields : List Field)

/-- Apply one field-adding call. -/
def applyFieldCall (e : Embed) : FieldCall → Embed
  | .single n v i => e.add_field n v i
  | .bulk fs => e.add_fields fs

/-- The fields one call contributes, in the order it supplies them. -/
def fieldCallFields : FieldCall → List Field
  | .single n v i => [⟨n, v, i⟩]
  | .bulk fs => fs

/-- The field order the spec claims for a sequence of calls: the fields of
the `add_field` calls in call order, followed by the fields of the
`add_fields` calls in supplied order, in call order. (Comparison definition,
written from the spec's words, not from the code.) -/
def specClaimedFieldOrder (calls : List FieldCall) : List Field :=
  (calls.filterMap fun c =>
    match c with
    | .single n v i => some (⟨n, v, i⟩ : Field)
    | .bulk _ => none) ++
  (calls.filterMap fun c =>
    match c with
    | .single _ _ _ => none
    | .bulk fs => some fs).flatten

end BlurpleHook

namespace BlurpleHook

/-! ## Drain-loop lemmas -/

namespace queue

theorem start_drain_nil : start_drain [] = ([], []) := by
  rw [start_drain]
  simp [pop_back]

/-- A full bounded drain of the reverse of `r` produces the windows of `r`
read front to back, and ends with the queue empty. -/
theorem start_drain_reverse :
    ∀ r : List Webhook, start_drain r.reverse = (windowsOfBack r, [])
  | [] => by
    simpa [windowsOfBack] using start_drain_nil
  | [a] => by
    rw [List.reverse_singleton, start_drain]
    simp [pop_back, windowsOfBack, start_drain_nil]
  | a :: b :: t => by
    have ih := start_drain_reverse t
    rw [start_drain]
    simp only [List.reverse_cons, List.append_assoc, List.singleton_append]
    simp [pop_back, windowsOfBack, ih]

/-- A full bounded drain pops the queue back to front, two per window, and
leaves it empty. -/
theorem start_drain_eq (q : List Webhook) :
    start_drain q = (windowsOfBack q.reverse, []) := by
  have h := start_drain_reverse q.reverse
  rwa [List.reverse_reverse] at h

theorem windowsOfBack_flatten : ∀ r : List Webhook, (windowsOfBack r).flatten = r
  | [] => rfl
  | [a] => rfl
  | a :: b :: t => by
    simp [windowsOfBack, windowsOfBack_flatten t]

/-- Delivery order of a full bounded drain: back of the queue first. -/
theorem delivered_eq (q : List Webhook) : delivered q = q.reverse := by
  rw [delivered, start_drain_eq]
  exact windowsOfBack_flatten q.reverse

theorem enqueue_multi_eq (ws q : List Webhook) :
    enqueue_multi q ws = ws.reverse ++ q := by
  induction ws generalizing q with
  | nil => rfl
  | cons w ws ih =>
    simp only [enqueue_multi, List.foldl_cons] at ih ⊢
    rw [ih (push_front q w)]
    simp [push_front]

/-- The batch fed to `enqueue_multi` on an idle empty queue is delivered in
its input order: the front-pushes lay the batch out reversed, and the
back-pops reverse it again. -/
theorem delivered_enqueue_multi_nil (ws : List Webhook) :
    delivered (enqueue_multi [] ws) = ws := by
  rw [enqueue_multi_eq, List.append_nil, delivered_eq, List.reverse_reverse]

end queue

end BlurpleHook

namespace BlurpleHook

/-! ## Colour-parsing lemmas -/

theorem hexFoldVal_nil (acc : Nat) : hexFoldVal [] acc = acc := rfl

theorem hexFoldVal_cons (c : Char) (cs : List Char) (acc : Nat) :
    hexFoldVal (c :: cs) acc = hexFoldVal cs (acc * 16 + (hexDigitVal? c).getD 0) := rfl

/-- The accumulation never decreases below its starting accumulator. -/
theorem le_hexFoldVal : ∀ (l : List Char) (acc : Nat), acc ≤ hexFoldVal l acc
  | [], _ => Nat.le_refl _
  | c :: cs, acc => by
    rw [hexFoldVal_cons]
    exact Nat.le_trans (by omega) (le_hexFoldVal cs (acc * 16 + (hexDigitVal? c).getD 0))

/-- On a run of valid digits whose value stays within `usize`, the checked
accumulation loop succeeds and returns the reference value. -/
theorem parseHexUsize_eq_some :
    ∀ (l : List Char) (acc : Nat), (∀ c ∈ l, (hexDigitVal? c).isSome) →
      hexFoldVal l acc ≤ usizeMax → parseHexUsize l acc = some (hexFoldVal l acc)
  | [], _, _, _ => rfl
  | c :: cs, acc, hall, hle => by
    obtain ⟨d, hd⟩ := Option.isSome_iff_exists.mp (hall c (List.mem_cons_self c cs))
    have hcs : ∀ x ∈ cs, (hexDigitVal? x).isSome := fun x hx =>
      hall x (List.mem_cons_of_mem _ hx)
    have hv : hexFoldVal (c :: cs) acc = hexFoldVal cs (acc * 16 + d) := by
      rw [hexFoldVal_cons, hd]
      rfl
    have hle' : hexFoldVal cs (acc * 16 + d) ≤ usizeMax := hv ▸ hle
    have hbound : acc * 16 + d ≤ usizeMax :=
      Nat.le_trans (le_hexFoldVal cs (acc * 16 + d)) hle'
    rw [parseHexUsize, hd]
    simp only [hbound, if_pos]
    rw [parseHexUsize_eq_some cs (acc * 16 + d) hcs hle', hv]

/-- A non-digit character is rejected by `hexDigitVal?`; in particular the
sign characters are not digits. -/
theorem hexDigitVal?_plus : hexDigitVal? '+' = none := by decide

theorem hexDigitVal?_minus : hexDigitVal? '-' = none := by decide

theorem hexDigitVal?_hash : hexDigitVal? '#' = none := by decide

theorem hexDigitVal?_x : hexDigitVal? 'x' = none := by decide

/-- `from_str_radix_16` on a non-empty all-digit run within `usize` range
returns the run's base-16 value. -/
theorem from_str_radix_16_all_hex (l : List Char) (hne : l ≠ [])
    (hall : ∀ c ∈ l, (hexDigitVal? c).isSome)
    (hle : hexDigitsValue l ≤ usizeMax) :
    from_str_radix_16 l = some (hexDigitsValue l) := by
  match l, hne with
  | c :: rest, _ =>
    have hc := hall c (List.mem_cons_self c rest)
    have hplus : ¬(c = '+') := by
      rintro rfl
      rw [hexDigitVal?_plus] at hc
      exact Bool.noConfusion hc
    have hminus : ¬(c = '-') := by
      rintro rfl
      rw [hexDigitVal?_minus] at hc
      exact Bool.noConfusion hc
    rw [from_str_radix_16]
    simp only [hplus, hminus, false_or, or_self, false_and, if_false, ite_false]
    exact parseHexUsize_eq_some (c :: rest) 0 hall hle

/-- Stripping leading `#` does nothing to an all-digit run. -/
theorem trim_hash_all_hex :
    ∀ l : List Char, (∀ c ∈ l, (hexDigitVal? c).isSome) →
      trim_start_matches_hash l = l
  | [], _ => rfl
  | c :: cs, h => by
    have hc := h c (List.mem_cons_self c cs)
    have : ¬(c = '#') := by
      rintro rfl
      rw [hexDigitVal?_hash] at hc
      exact Bool.noConfusion hc
    rw [trim_start_matches_hash]
    simp [this]

/-- Stripping leading `0x` does nothing to an all-digit run (the second
character can never be `x`). -/
theorem trim_0x_all_hex :
    ∀ l : List Char, (∀ c ∈ l, (hexDigitVal? c).isSome) →
      trim_start_matches_0x l = l
  | [], _ => rfl
  | [_], _ => rfl
  | c1 :: c2 :: t, h => by
    have hc2 := h c2 (List.mem_cons_of_mem _ (List.mem_cons_self c2 t))
    have : ¬(c1 = '0' ∧ c2 = 'x') := by
      rintro ⟨-, rfl⟩
      rw [hexDigitVal?_x] at hc2
      exact Bool.noConfusion hc2
    rw [trim_start_matches_0x]
    simp [this]

theorem trim_hash_cons_hash (l : List Char) :
    trim_start_matches_hash ('#' :: l) = trim_start_matches_hash l := by
  rw [trim_start_matches_hash]
  simp

theorem trim_0x_cons_0x (l : List Char) :
    trim_start_matches_0x ('0' :: 'x' :: l) = trim_start_matches_0x l := by
  rw [trim_start_matches_0x]
  simp

theorem trim_hash_cons_0x (l : List Char) :
    trim_start_matches_hash ('0' :: l) = '0' :: l := by
  rw [trim_start_matches_hash]
  simp

/-- The normalization rule on the three accepted shapes of a hexadecimal
colour string: bare digits, `#`-prefixed, `0x`-prefixed. -/
theorem normalizeColour_hex (ds : List Char) (hne : ds ≠ [])
    (hall : ∀ c ∈ ds, (hexDigitVal? c).isSome)
    (hle : hexDigitsValue ds ≤ usizeMax) :
    normalizeColour (.Hex ds) = hexDigitsValue ds ∧
    normalizeColour (.Hex ('#' :: ds)) = hexDigitsValue ds ∧
    normalizeColour (.Hex ('0' :: 'x' :: ds)) = hexDigitsValue ds := by
  have htrim : trim_start_matches_0x (trim_start_matches_hash ds) = ds := by
    rw [trim_hash_all_hex ds hall, trim_0x_all_hex ds hall]
  have hparse := from_str_radix_16_all_hex ds hne hall hle
  refine ⟨?_, ?_, ?_⟩
  · rw [normalizeColour, htrim, hparse]
    rfl
  · rw [normalizeColour, trim_hash_cons_hash, htrim, hparse]
    rfl
  · rw [normalizeColour, trim_hash_cons_0x, trim_0x_cons_0x,
      trim_0x_all_hex ds hall, hparse]
    rfl

/-- An unparsable remainder falls back to the fixed colour. -/
theorem normalizeColour_fallback (s : List Char)
    (h : from_str_radix_16 (trim_start_matches_0x (trim_start_matches_hash s)) = none) :
    normalizeColour (.Hex s) = 10066329 := by
  rw [normalizeColour, h]
  rfl

theorem set_colour_color (e : Embed) (c : ColourType) :
    (e.set_colour c).color = some (normalizeColour c) := rfl

end BlurpleHook

namespace BlurpleHook

/-! ## Builder-invariant lemmas -/

/-- No public builder call touches the type discriminator. -/
theorem applyEmbedOp_type (e : Embed) (op : EmbedOp) :
    (applyEmbedOp e op)._type = e._type := by
  cases op <;> rfl

theorem foldl_applyEmbedOp_type (ops : List EmbedOp) (e : Embed) :
    (ops.foldl applyEmbedOp e)._type = e._type := by
  induction ops generalizing e with
  | nil => rfl
  | cons op ops ih => rw [List.foldl_cons, ih, applyEmbedOp_type]

/-- No public builder call touches the destination identifier. -/
theorem applyWebhookOp_url (w : Webhook) (op : WebhookOp) :
    (applyWebhookOp w op).webhook_url = w.webhook_url := by
  cases op <;> rfl

theorem foldl_applyWebhookOp_url (ops : List WebhookOp) (w : Webhook) :
    (ops.foldl applyWebhookOp w).webhook_url = w.webhook_url := by
  induction ops generalizing w with
  | nil => rfl
  | cons op ops ih => rw [List.foldl_cons, ih, applyWebhookOp_url]

/-- The serialized webhook object has exactly serde's five emitted keys. -/
theorem jsonKeys_webhook_toJson (w : Webhook) :
    jsonKeys w.toJson = ["content", "username", "avatar_url", "embeds", "components"] := rfl

/-- Each field-adding call appends its contribution at the end. -/
theorem applyFieldCall_fields (e : Embed) (c : FieldCall) :
    (applyFieldCall e c).fields = e.fields ++ fieldCallFields c := by
  cases c <;> rfl

theorem foldl_applyFieldCall_fields (calls : List FieldCall) (e : Embed) :
    (calls.foldl applyFieldCall e).fields =
      e.fields ++ (calls.map fieldCallFields).flatten := by
  induction calls generalizing e with
  | nil => simp
  | cons c calls ih =>
    rw [List.foldl_cons, ih, applyFieldCall_fields]
    simp

end BlurpleHook

namespace BlurpleHook

/-! ## The claims -/

/-- C1: for every hexadecimal colour string — bare digits, or the same
digits behind a leading `#` or `0x` — `set_colour` on `ColourType::Hex`
sets the embed's colour to the integer the bare digits denote in base 16;
and whenever the prefix-stripped remainder is not parsable in base 16, the
resulting colour is exactly the fallback integer 10066329. -/
theorem C1_set_colour_hex_normalization :
    (∀ (e : Embed) (ds : List Char), ds ≠ [] →
      (∀ c ∈ ds, (hexDigitVal? c).isSome) → hexDigitsValue ds ≤ usizeMax →
      ((e.set_colour (.Hex ds)).color = some (hexDigitsValue ds) ∧
       (e.set_colour (.Hex ('#' :: ds))).color = some (hexDigitsValue ds) ∧
       (e.set_colour (.Hex ('0' :: 'x' :: ds))).color = some (hexDigitsValue ds))) ∧
    (∀ (e : Embed) (s : List Char),
      from_str_radix_16 (trim_start_matches_0x (trim_start_matches_hash s)) = none →
      (e.set_colour (.Hex s)).color = some 10066329) := by
  constructor
  · intro e ds hne hall hle
    obtain ⟨h1, h2, h3⟩ := normalizeColour_hex ds hne hall hle
    exact ⟨by rw [set_colour_color, h1], by rw [set_colour_color, h2],
      by rw [set_colour_color, h3]⟩
  · intro e s h
    rw [set_colour_color, normalizeColour_fallback s h]

/-- C1 witness: the digit run `FF`, bare and behind both accepted leading
markers, normalizes to 255; the unparsable string `-0` (a `-` sign is an
invalid digit for the unsigned `usize`) falls back to 10066329. -/
theorem C1_set_colour_hex_normalization_witness :
    ((Embed.new.set_colour (.Hex ['F', 'F'])).color = some (hexDigitsValue ['F', 'F']) ∧
     (Embed.new.set_colour (.Hex ('#' :: ['F', 'F']))).color = some (hexDigitsValue ['F', 'F']) ∧
     (Embed.new.set_colour (.Hex ('0' :: 'x' :: ['F', 'F']))).color =
       some (hexDigitsValue ['F', 'F'])) ∧
    (Embed.new.set_colour (.Hex ['-', '0'])).color = some 10066329 :=
  ⟨C1_set_colour_hex_normalization.1 Embed.new ['F', 'F'] (by decide) (by decide)
      (by decide),
   C1_set_colour_hex_normalization.2 Embed.new ['-', '0'] (by decide)⟩

/-- C2 counterexample: enqueueing the batch `[a, b, c]` with
`enqueue_multi` on an empty queue and draining fully delivers `a, b, c`,
not the claimed reversed order `c, b, a`. -/
theorem C2_counterexample :
    queue.delivered (queue.enqueue_multi []
        [Webhook.new "a", Webhook.new "b", Webhook.new "c"]) ≠
      [Webhook.new "c", Webhook.new "b", Webhook.new "a"] := by
  rw [queue.delivered_enqueue_multi_nil]
  decide

/-- C2 (amended): a batch `enqueue_multi`-ed onto an empty queue is
delivered by a full bounded drain in its input order — the front-pushes lay
the batch out reversed inside the deque, but the drain pops from the
opposite (back) end, so the two reversals cancel. -/
theorem C2_enqueue_multi_delivery_order (ws : List Webhook) :
    queue.delivered (queue.enqueue_multi [] ws) = ws :=
  queue.delivered_enqueue_multi_nil ws

/-- C3: a bounded drain of a queue holding exactly 5 pending webhooks
terminates after exactly 3 drain windows of 2, 2 and 1 deliveries, delivers
all 5 items (back of the deque first), and leaves the queue empty. -/
theorem C3_drain_five_windows (q : List Webhook) (h : q.length = 5) :
    (queue.start_drain q).1.map List.length = [2, 2, 1] ∧
    (queue.start_drain q).2 = [] ∧
    (queue.start_drain q).1.flatten = q.reverse := by
  obtain ⟨a, b, c, d, e, rfl⟩ : ∃ a b c d e, q = [a, b, c, d, e] := by
    match q, h with
    | [a, b, c, d, e], _ => exact ⟨a, b, c, d, e, rfl⟩
  rw [queue.start_drain_eq]
  simp [queue.windowsOfBack]

/-- C3 witness: the concrete five-element queue `[w5, w4, w3, w2, w1]`
drains in windows of 2, 2 and 1 and ends empty. -/
theorem C3_drain_five_windows_witness :
    (queue.start_drain [Webhook.new "5", Webhook.new "4", Webhook.new "3",
        Webhook.new "2", Webhook.new "1"]).1.map List.length = [2, 2, 1] ∧
    (queue.start_drain [Webhook.new "5", Webhook.new "4", Webhook.new "3",
        Webhook.new "2", Webhook.new "1"]).2 = [] ∧
    (queue.start_drain [Webhook.new "5", Webhook.new "4", Webhook.new "3",
        Webhook.new "2", Webhook.new "1"]).1.flatten =
      [Webhook.new "5", Webhook.new "4", Webhook.new "3",
        Webhook.new "2", Webhook.new "1"].reverse :=
  C3_drain_five_windows [Webhook.new "5", Webhook.new "4", Webhook.new "3",
    Webhook.new "2", Webhook.new "1"] rfl

/-- C4: when the transport returns a response, `send` succeeds exactly on
HTTP status 200 or 204; on any other status it fails and the failure detail
ends with the response body text (the empty string when the body is
unreadable). -/
theorem C4_send_classification (w : Webhook)
    (transport : HttpRequest → Except String HttpResponse) (resp : HttpResponse)
    (h : transport w.request = .ok resp) :
    (w.send transport = .ok () ↔ (resp.status = 200 ∨ resp.status = 204)) ∧
    (¬(resp.status = 200 ∨ resp.status = 204) →
      ∃ detail, w.send transport = .error detail ∧
        ∃ p, detail = p ++ resp.body.getD "") := by
  have hsend : w.send transport =
      if resp.status = 204 ∨ resp.status = 200 then .ok ()
      else .error ("Failed to send request, " ++ resp.body.getD "") := by
    rw [Webhook.send, h]
  by_cases hs : resp.status = 204 ∨ resp.status = 200
  · rw [hsend, if_pos hs]
    exact ⟨⟨fun _ => hs.symm, fun _ => rfl⟩, fun hno => absurd hs.symm hno⟩
  · rw [hsend, if_neg hs]
    refine ⟨⟨fun hok => absurd hok (by simp), fun hor => absurd hor.symm hs⟩, ?_⟩
    exact fun _ => ⟨"Failed to send request, " ++ resp.body.getD "", rfl,
      "Failed to send request, ", rfl⟩

/-- C4 witness: a transport answering status 400 with body `bad` makes
`send` fail with a detail ending in `bad`. -/
theorem C4_send_classification_witness :
    ((Webhook.new "u").send (fun _ => .ok ⟨400, some "bad"⟩) = .ok () ↔
      ((400 : Nat) = 200 ∨ (400 : Nat) = 204)) ∧
    (¬((400 : Nat) = 200 ∨ (400 : Nat) = 204) →
      ∃ detail, (Webhook.new "u").send (fun _ => .ok ⟨400, some "bad"⟩) = .error detail ∧
        ∃ p, detail = p ++ (some "bad").getD "") :=
  C4_send_classification (Webhook.new "u") (fun _ => .ok ⟨400, some "bad"⟩)
    ⟨400, some "bad"⟩ rfl

/-- C5: after `Embed::new` and any sequence of public builder calls, the
type discriminator is exactly the string `"rich"`; no builder call can set
it to any other value. -/
theorem C5_type_discriminator_rich (ops : List EmbedOp) :
    (ops.foldl applyEmbedOp Embed.new)._type = "rich" := by
  rw [foldl_applyEmbedOp_type]
  rfl

/-- C6 counterexample: an `add_fields` call followed by an `add_field` call
keeps call order — the bulk-appended field stays in front of the later
individually-added one, contradicting the claimed
individual-fields-first order. -/
theorem C6_counterexample :
    ((Embed.new.add_fields [⟨"B", "VB", false⟩]).add_field "A" "VA" true).fields ≠
      specClaimedFieldOrder
        [.bulk [⟨"B", "VB", false⟩], .single "A" "VA" true] := by
  decide

/-- C6 (amended): for every sequence of `add_field` and `add_fields` calls,
the resulting field order is the concatenation, in call order, of each
call's contribution — `add_field` contributes its one field, `add_fields`
its supplied fields in supplied order. -/
theorem C6_field_order (calls : List FieldCall) (e : Embed) :
    (calls.foldl applyFieldCall e).fields =
      e.fields ++ (calls.map fieldCallFields).flatten :=
  foldl_applyFieldCall_fields calls e

/-- C7: the destination identifier set by `Webhook::new` is unchanged by
every sequence of builder calls, and the serialized JSON body of any
webhook carries no `webhook_url` key (serde skips the field). -/
theorem C7_webhook_url_immutable_unserialized :
    (∀ (url : String) (ops : List WebhookOp),
      (ops.foldl applyWebhookOp (Webhook.new url)).webhook_url = url) ∧
    (∀ w : Webhook, "webhook_url" ∉ jsonKeys w.toJson) := by
  constructor
  · intro url ops
    rw [foldl_applyWebhookOp_url]
    rfl
  · intro w
    rw [jsonKeys_webhook_toJson]
    decide

/-- C8 counterexample: an iteration starting at instant 0 whose pops and
deliveries take 100 ms re-arms at instant 2100, not at the claimed
`step-1 start + 2000 = 2000` — the sleep deadline is sampled after the
deliveries, not at step 1. -/
theorem C8_counterexample :
    nextIterationStart 0 100 ≠ specNextIterationStart 0 := by
  decide

/-- C8 (amended): each drain window lasts at least two seconds from the
start of step 1 — the deadline is two seconds after the deliveries finish —
and it equals exactly two seconds only when the pops and deliveries take no
time at all. -/
theorem C8_window_at_least_two_seconds (stepOneStart elapsed : Nat) :
    specNextIterationStart stepOneStart ≤ nextIterationStart stepOneStart elapsed ∧
    (nextIterationStart stepOneStart elapsed = specNextIterationStart stepOneStart ↔
      elapsed = 0) := by
  unfold nextIterationStart specNextIterationStart
  omega

/-- C9: `set_color` is an alias of `set_colour` — on every embed and every
colour argument the two return identical results. -/
theorem C9_set_color_alias (e : Embed) (color : ColourType) :
    e.set_color color = e.set_colour color := rfl

/-- C10: `add_fields` appends all supplied fields, in order, at the end of
the embed's field list, and `Vec::append` leaves the caller's vector
empty. -/
theorem C10_add_fields_drains_input (e : Embed) (fields : List Field) :
    (e.add_fields_full fields).1.fields = e.fields ++ fields ∧
    (e.add_fields_full fields).2 = [] :=
  ⟨rfl, rfl⟩

end BlurpleHook
